import Mathlib

/-!
Verification of the apuntador backend's certificate-authority core against
its specification.  The definitions below are shallow embeddings of the
Python sources: the local file-backed certificate repository
(`LocalCertificateRepository`), the certificate authority (`sign_csr`),
the device service (`renew_certificate`), the mTLS middleware
(`_is_exempt_path`, `_extract_certificate`, `dispatch`), the PKCE helpers,
the signed-state codec, and the attestation service.  File writes become
association-list updates (one binding per key, matching one file per key on
disk); wall-clock time is a `Nat` parameter; cryptographic primitives
(CSR parsing, SHA-256, HMAC, certificate PEM construction) are function
parameters, since the code treats them as opaque library calls.
-/

deriving instance DecidableEq for Except

namespace Apuntador

/-- Boolean prefix test on character lists, structural so that concrete
instances evaluate. -/
def listPrefix : List Char → List Char → Bool
  | [], _ => true
  | _ :: _, [] => false
  | a :: as, b :: bs => a == b && listPrefix as bs

/-- Python's `str.startswith`. -/
def strStartsWith (s pre : String) : Bool := listPrefix pre.data s.data

/-- Python's `str.lower` (ASCII, per character). -/
def strToLower (s : String) : String := ⟨s.data.map Char.toLower⟩

/-- Association-list update with file-overwrite semantics: replaces the
binding for the key when present, otherwise appends it.  Mirrors
`path.write_text` on `{key}.json`. -/
def alistPut (k : String) (v : α) : List (String × α) → List (String × α)
  | [] => [(k, v)]
  | (k', v') :: rest => if k' = k then (k, v) :: rest else (k', v') :: alistPut k v rest

/-- Association-list lookup; mirrors reading `{key}.json` when the file
exists. -/
def lookupA (k : String) : List (String × α) → Option α
  | [] => none
  | (k', v) :: rest => if k' = k then some v else lookupA k rest

theorem lookupA_put_self (k : String) (v : α) (m : List (String × α)) :
    lookupA k (alistPut k v m) = some v := by
  induction m with
  | nil => simp [alistPut, lookupA]
  | cons hd tl ih =>
    by_cases h : hd.1 = k
    · simp [alistPut, lookupA, h]
    · simp [alistPut, lookupA, h, ih]

theorem lookupA_put_ne (k k' : String) (v : α) (m : List (String × α))
    (h : k ≠ k') : lookupA k (alistPut k' v m) = lookupA k m := by
  have h' : k' ≠ k := Ne.symm h
  induction m with
  | nil => simp [alistPut, lookupA, h']
  | cons hd tl ih =>
    by_cases hh : hd.1 = k'
    · simp [alistPut, lookupA, hh, h']
    · by_cases hk : hd.1 = k <;> simp [alistPut, lookupA, hh, hk, ih, h]

theorem alistPut_idem (k : String) (v : α) (m : List (String × α)) :
    alistPut k v (alistPut k v m) = alistPut k v m := by
  induction m with
  | nil => simp [alistPut]
  | cons hd tl ih =>
    by_cases h : hd.1 = k
    · simp [alistPut, h]
    · simp [alistPut, h, ih]

/-- The certificate registry record, as serialized to
`certificates/{device_id}.json` by `LocalCertificateRepository`. -/
structure Certificate where
  device_id : String
  serial : String
  platform : String
  issued_at : Nat
  expires_at : Nat
  certificate_pem : String
  revoked : Bool
deriving DecidableEq, Repr

/-- State of `LocalCertificateRepository`: one record file per device under
`certificates/`, one serial-index file per serial under `serials/` holding
the owning `device_id`. -/
structure LocalCertStore where
  certs : List (String × Certificate)
  serials : List (String × String)
deriving DecidableEq, Repr

def emptyStore : LocalCertStore := ⟨[], []⟩

/-- `LocalCertificateRepository.save_certificate`: writes the record file
keyed by `device_id` and the serial-index file keyed by `serial`. -/
def save_certificate (st : LocalCertStore) (c : Certificate) : LocalCertStore :=
  { certs := alistPut c.device_id c st.certs
    serials := alistPut c.serial c.device_id st.serials }

/-- `LocalCertificateRepository.get_certificate`: reads the record file for
the device, `none` when absent. -/
def get_certificate (st : LocalCertStore) (device_id : String) : Option Certificate :=
  lookupA device_id st.certs

/-- `LocalCertificateRepository.list_all_certificates`: every record file
under `certificates/`. -/
def list_all_certificates (st : LocalCertStore) : List Certificate :=
  st.certs.map (·.2)

/-- `LocalCertificateRepository.is_serial_whitelisted`: the serial-index
file must exist, the pointed device's record must exist and not be revoked,
and the record must not be expired (`expires_at < now` fails).  The code
performs no check against `issued_at`. -/
def is_serial_whitelisted (st : LocalCertStore) (now : Nat) (serial : String) : Bool :=
  match lookupA serial st.serials with
  | none => false
  | some device_id =>
    match get_certificate st device_id with
    | none => false
    | some cert =>
      if cert.revoked then false
      else if cert.expires_at < now then false
      else true

/-- `LocalCertificateRepository.revoke_certificate`: loads the device's
current record, marks it revoked and re-saves it; `false` when the device
has no record. -/
def revoke_certificate (st : LocalCertStore) (device_id : String) :
    LocalCertStore × Bool :=
  match get_certificate st device_id with
  | none => (st, false)
  | some cert => (save_certificate st { cert with revoked := true }, true)

/-- Seconds per day, the unit behind `timedelta(days=…)`. -/
def oneDay : Nat := 86400

/-- `LocalCertificateRepository.list_expiring_certificates`. -/
def list_expiring_certificates (st : LocalCertStore) (now days : Nat) : List Certificate :=
  (list_all_certificates st).filter
    (fun c => !c.revoked && c.expires_at ≤ now + oneDay * days)

/-- Transient parsed CSR: the fields of the `cryptography` CSR object that
`sign_csr` consults. -/
structure CSR where
  is_signature_valid : Bool
  public_key : String
deriving DecidableEq, Repr

/-- Abstraction of the x509 builder pipeline: subject device, serial,
CSR public key, validity window, producing the signed leaf PEM. -/
def PemBuilder : Type := String → String → String → Nat → Nat → String

inductive CAError
  | invalidCsrFormat
  | invalidCsrSignature
deriving DecidableEq, Repr

/-- `CertificateAuthority._get_validity_days`: platform table with lowercase
lookup and a default of 7 days. -/
def get_validity_days (platform : String) : Nat :=
  let p := strToLower platform
  if p = "android" then 30
  else if p = "ios" then 30
  else if p = "desktop" then 7
  else if p = "web" then 1
  else 7

/-- `CertificateAuthority.sign_csr`.  `parse` stands for
`x509.load_pem_x509_csr` (`none` = parse exception), `mkPem` for the
builder-and-sign pipeline, `serial_hex` for the freshly minted random
serial (already formatted to 32 uppercase hex chars), `now` for
`datetime.now(UTC)`.  Returns the result together with the store state
after the call: the record is saved only after parsing and signature
validation succeed. -/
def sign_csr (parse : String → Option CSR) (mkPem : PemBuilder)
    (st : LocalCertStore) (csr_pem device_id platform : String)
    (validity_days : Option Nat) (serial_hex : String) (now : Nat) :
    Except CAError Certificate × LocalCertStore :=
  match parse csr_pem with
  | none => (.error .invalidCsrFormat, st)
  | some csr =>
    if !csr.is_signature_valid then (.error .invalidCsrSignature, st)
    else
      let days := validity_days.getD (get_validity_days platform)
      let not_before := now
      let not_after := now + oneDay * days
      let cert : Certificate :=
        { device_id := device_id
          serial := serial_hex
          platform := platform
          issued_at := not_before
          expires_at := not_after
          certificate_pem := mkPem device_id serial_hex csr.public_key not_before not_after
          revoked := false }
      (.ok cert, save_certificate st cert)

inductive RenewError
  | notFound
  | serialMismatch
  | caError (e : CAError)
deriving DecidableEq, Repr

/-- `DeviceService.renew_certificate`: load the device's record
(`NOT_FOUND` when absent), compare its serial to the supplied `old_serial`
with `!=` (exact string equality), sign the new CSR with the old record's
platform, then call `CertificateAuthority.revoke_certificate(device_id)`
(whose boolean result the service ignores). -/
def renew_certificate (parse : String → Option CSR) (mkPem : PemBuilder)
    (st : LocalCertStore) (device_id old_serial csr_pem new_serial : String)
    (now : Nat) : Except RenewError Certificate × LocalCertStore :=
  match get_certificate st device_id with
  | none => (.error .notFound, st)
  | some old_cert =>
    if old_cert.serial ≠ old_serial then (.error .serialMismatch, st)
    else
      match sign_csr parse mkPem st csr_pem device_id old_cert.platform none new_serial now with
      | (.error e, st1) => (.error (.caError e), st1)
      | (.ok new_cert, st1) =>
        let revoked := revoke_certificate st1 device_id
        (.ok new_cert, revoked.1)

/-! mTLS validation middleware (`MTLSValidationMiddleware`). -/

/-- `self.exempt_paths` from `MTLSValidationMiddleware.__init__`. -/
def exemptPaths : List String :=
  ["/", "/health", "/health/public", "/docs", "/redoc", "/openapi.json"]

/-- `self.exempt_prefixes`. -/
def exemptPrefixes : List String := ["/oauth/", "/config/"]

/-- `self.exempt_exact`. -/
def exemptExact : List String := ["/device/enroll", "/device/ca-certificate"]

/-- `MTLSValidationMiddleware._is_exempt_path`. -/
def is_exempt_path (path : String) : Bool :=
  exemptPaths.contains path || exemptExact.contains path
    || exemptPrefixes.any (fun p => strStartsWith path p)

/-- The header normalization applied by `_extract_certificate` to
`X-Client-Cert` / `X-SSL-Client-Cert` values: decode `%0A` and `%20`, then
wrap in PEM markers when missing. -/
def normalize_pem_header (h : String) : String :=
  let p := (h.replace "%0A" "\n").replace "%20" " "
  if strStartsWith p "-----BEGIN CERTIFICATE-----" then p
  else "-----BEGIN CERTIFICATE-----\n" ++ p ++ "\n-----END CERTIFICATE-----"

/-- `MTLSValidationMiddleware._extract_certificate`: the two PEM headers are
tried in order, then the Envoy `X-Forwarded-Client-Cert` header, whose
`Cert="base64-DER"` extraction and DER-to-PEM conversion is the
`decodeEnvoy` parameter (`none` = regex miss or decode failure). -/
def extract_certificate (decodeEnvoy : String → Option String)
    (xClientCert xSslClientCert xForwardedClientCert : Option String) :
    Option String :=
  match xClientCert with
  | some h => some (normalize_pem_header h)
  | none =>
    match xSslClientCert with
    | some h => some (normalize_pem_header h)
    | none =>
      match xForwardedClientCert with
      | some h => decodeEnvoy h
      | none => none

inductive MtlsOutcome
  | forwarded
  | certMissing
  | forbidden (reason : String)
deriving DecidableEq, Repr

/-- `MTLSValidationMiddleware.dispatch`: exempt paths are forwarded
untouched; a missing certificate on a non-exempt path yields the 401
response; otherwise `_validate_certificate` (the `validate` parameter,
`.error reason` = invalid) decides between 403 and forwarding. -/
def dispatch (validate : String → Except String (String × String))
    (decodeEnvoy : String → Option String) (path : String)
    (xcc xssl xfcc : Option String) : MtlsOutcome :=
  if is_exempt_path path then .forwarded
  else
    match extract_certificate decodeEnvoy xcc xssl xfcc with
    | none => .certMissing
    | some pem =>
      match validate pem with
      | .error reason => .forbidden reason
      | .ok _ => .forwarded

/-! PKCE helpers (`apuntador/utils/pkce.py`) and the base64url encoding
they rely on (`base64.urlsafe_b64encode` over a SHA-256 digest, followed by
`.rstrip("=")`). Bytes are `Nat`s below 256. -/

/-- The base64url alphabet. -/
def b64UrlChars : List Char :=
  ['A', 'B', 'C', 'D', 'E', 'F', 'G', 'H', 'I', 'J', 'K', 'L', 'M',
   'N', 'O', 'P', 'Q', 'R', 'S', 'T', 'U', 'V', 'W', 'X', 'Y', 'Z',
   'a', 'b', 'c', 'd', 'e', 'f', 'g', 'h', 'i', 'j', 'k', 'l', 'm',
   'n', 'o', 'p', 'q', 'r', 's', 't', 'u', 'v', 'w', 'x', 'y', 'z',
   '0', '1', '2', '3', '4', '5', '6', '7', '8', '9', '-', '_']

def b64UrlChar (n : Nat) : Char := b64UrlChars.getD n 'A'

/-- `base64.urlsafe_b64encode`: 3-byte groups to 4 alphabet chars, with
`=` padding for a 1- or 2-byte tail. -/
def base64UrlEncode : List Nat → List Char
  | [] => []
  | [a] => [b64UrlChar (a / 4), b64UrlChar (a % 4 * 16), '=', '=']
  | [a, b] =>
    [b64UrlChar (a / 4), b64UrlChar (a % 4 * 16 + b / 16), b64UrlChar (b % 16 * 4), '=']
  | a :: b :: c :: rest =>
    b64UrlChar (a / 4) :: b64UrlChar (a % 4 * 16 + b / 16) ::
      b64UrlChar (b % 16 * 4 + c / 64) :: b64UrlChar (c % 64) :: base64UrlEncode rest

/-- Modelled from the spec: `base64url_nopad`, the unpadded base64url
encoding named by the PKCE property. -/
def base64UrlNoPad : List Nat → List Char
  | [] => []
  | [a] => [b64UrlChar (a / 4), b64UrlChar (a % 4 * 16)]
  | [a, b] =>
    [b64UrlChar (a / 4), b64UrlChar (a % 4 * 16 + b / 16), b64UrlChar (b % 16 * 4)]
  | a :: b :: c :: rest =>
    b64UrlChar (a / 4) :: b64UrlChar (a % 4 * 16 + b / 16) ::
      b64UrlChar (b % 16 * 4 + c / 64) :: b64UrlChar (c % 64) :: base64UrlNoPad rest

/-- Python's `str.rstrip("=")`. -/
def rstripEq (s : List Char) : List Char :=
  (s.reverse.dropWhile (fun c => c = '=')).reverse

/-- `generate_code_challenge`: base64url-encode the SHA-256 digest of the
verifier and strip the padding.  `sha256` stands for
`hashlib.sha256(…).digest()`. -/
def generate_code_challenge (sha256 : String → List Nat) (code_verifier : String) :
    String :=
  ⟨rstripEq (base64UrlEncode (sha256 code_verifier))⟩

/-- Modelled from the spec: the `base64url_nopad(sha256 V)` value the PKCE
property compares against, as a string. -/
def base64UrlNoPadStr (bs : List Nat) : String := ⟨base64UrlNoPad bs⟩

/-- The OAuth state payload signed by `sign_data` in
`OAuthService.create_authorization`. -/
structure StatePayload where
  state : String
  code_verifier : String
  provider : String
  redirect_uri : String
deriving DecidableEq, Repr

/-- `GoogleDriveOAuthService.get_authorization_url`: the query parameters,
in the order the code builds them, later serialized by `urlencode`. -/
def get_authorization_url_params
    (client_id redirect_uri code_challenge state : String) :
    List (String × String) :=
  [("client_id", client_id),
   ("response_type", "code"),
   ("redirect_uri", redirect_uri),
   ("scope", "https://www.googleapis.com/auth/drive"),
   ("code_challenge", code_challenge),
   ("code_challenge_method", "S256"),
   ("state", state),
   ("access_type", "offline"),
   ("prompt", "consent")]

/-- `OAuthService.create_authorization` for the googledrive provider:
derive the challenge from the verifier, choose the state (client-supplied
or the fresh random one, `genState`), sign the state payload (`signState`
stands for `sign_data` returning the token string), and build the provider
URL parameters.  Returns the authorization endpoint and its query
parameters. -/
def create_authorization (sha256 : String → List Nat)
    (signState : StatePayload → String) (genState : String)
    (client_id code_verifier redirect_uri : String)
    (client_state : Option String) : String × List (String × String) :=
  let code_challenge := generate_code_challenge sha256 code_verifier
  let state := client_state.getD genState
  let signed_state :=
    signState ⟨state, code_verifier, "googledrive", redirect_uri⟩
  ("https://accounts.google.com/o/oauth2/v2/auth",
   get_authorization_url_params client_id redirect_uri code_challenge signed_state)

/-! Signed-state codec (`apuntador/utils/security.py`), backed by
itsdangerous' `URLSafeTimedSerializer`: a token is the serialized payload,
its issue timestamp, and an HMAC tag over both.  `verify` recomputes the
tag (`BadSignature` on mismatch), then compares the token's age to
`max_age` (`SignatureExpired`, a `BadSignature`, when exceeded); both
exceptions are caught and turned into `none`. -/

structure SignedToken (α : Type) (β : Type) where
  payload : α
  ts : Nat
  sig : β
deriving DecidableEq, Repr

/-- `sign_data`: serialize the payload with the current timestamp and the
MAC over both.  `mac` stands for the keyed HMAC of the serializer. -/
def sign_data (mac : α → Nat → β) (data : α) (now : Nat) : SignedToken α β :=
  ⟨data, now, mac data now⟩

/-- `verify_signed_data`: recompute and compare the MAC, then check
`now - ts ≤ max_age`; any failure is caught and becomes `none`. -/
def verify_signed_data [DecidableEq β] (mac : α → Nat → β)
    (token : SignedToken α β) (max_age now : Nat) : Option α :=
  if token.sig = mac token.payload token.ts then
    if now - token.ts ≤ max_age then some token.payload else none
  else none

/-! Device attestation service (`apuntador/services/device_attestation.py`):
SafetyNet verification with the in-memory TTL cache. -/

inductive AttStatus
  | valid
  | invalid
  | failed
  | unsupported
deriving DecidableEq, Repr

/-- The `details` dict stored with a cache entry. -/
inductive AttDetails
  | safetynet (cts_profile_match basic_integrity : Bool) (advice : Option String)
  | desktop (fingerprint_match rate_limit_ok : Bool)
deriving DecidableEq, Repr

/-- `AttestationCacheEntry`. -/
structure AttCacheEntry where
  device_id : String
  platform : String
  status : AttStatus
  timestamp : Nat
  expires_at : Nat
  details : AttDetails
deriving DecidableEq, Repr

/-- The service's `_cache` dict, keyed `f"{device_id}:{platform}"`. -/
abbrev AttCache : Type := List (String × AttCacheEntry)

/-- `_get_cached_attestation`: returns the entry when present and not
expired (`is_expired` is `now > expires_at`); deletes an expired entry.
The resulting cache is returned alongside. -/
def get_cached_attestation (cache : AttCache) (now : Nat)
    (device_id platform : String) : Option AttCacheEntry × AttCache :=
  let key := device_id ++ ":" ++ platform
  match lookupA key cache with
  | none => (none, cache)
  | some entry =>
    if now > entry.expires_at then
      (none, cache.filter (fun kv => kv.1 ≠ key))
    else (some entry, cache)

/-- `_cache_attestation`: insert under `f"{device_id}:{platform}"` with
`expires_at = now + cache_ttl_seconds`. -/
def cache_attestation (cache : AttCache) (now ttl : Nat)
    (device_id platform : String) (status : AttStatus) (details : AttDetails) :
    AttCache :=
  alistPut (device_id ++ ":" ++ platform)
    ⟨device_id, platform, status, now, now + ttl, details⟩ cache

/-- The fields of the decoded SafetyNet JWS payload that `verify_safetynet`
reads: `nonce` (absent key gives `None`), `ctsProfileMatch` and
`basicIntegrity` (absent keys default to `False`), `advice`. -/
structure JwsPayload where
  nonce : Option String
  ctsProfileMatch : Bool
  basicIntegrity : Bool
  advice : Option String
deriving DecidableEq, Repr

structure SafetyNetRequest where
  device_id : String
  jws_token : String
  nonce : String
deriving DecidableEq, Repr

/-- `SafetyNetAttestationResponse`, restricted to the fields the service
sets. -/
structure SafetyNetResponse where
  status : AttStatus
  device_id : String
  timestamp : Nat
  cts_profile_match : Option Bool
  basic_integrity : Option Bool
  advice : Option String
  error_message : Option String
deriving DecidableEq, Repr

def detailsCts : AttDetails → Option Bool
  | .safetynet cts _ _ => some cts
  | .desktop _ _ => none

def detailsBasic : AttDetails → Option Bool
  | .safetynet _ basic _ => some basic
  | .desktop _ _ => none

/-- `DeviceAttestationService.verify_safetynet`.  `decodeJws` stands for
the split/base64/json decoding of the token (`none` = any exception,
mapped to a FAILED response).  On a cache hit the cached entry is returned;
on nonce mismatch an INVALID response is returned with no cache write;
otherwise the cts/basic-integrity verdict is computed, cached with
`expires_at = now + ttl`, and returned. -/
def verify_safetynet (decodeJws : String → Option JwsPayload)
    (cache : AttCache) (now ttl : Nat) (req : SafetyNetRequest) :
    SafetyNetResponse × AttCache :=
  match get_cached_attestation cache now req.device_id "android" with
  | (some entry, cache1) =>
    ({ status := entry.status, device_id := entry.device_id
       timestamp := entry.timestamp
       cts_profile_match := detailsCts entry.details
       basic_integrity := detailsBasic entry.details
       advice := none, error_message := none }, cache1)
  | (none, cache1) =>
    match decodeJws req.jws_token with
    | none =>
      ({ status := .failed, device_id := req.device_id, timestamp := now
         cts_profile_match := none, basic_integrity := none
         advice := none, error_message := some "decode error" }, cache1)
    | some payload =>
      if payload.nonce ≠ some req.nonce then
        ({ status := .invalid, device_id := req.device_id, timestamp := now
           cts_profile_match := none, basic_integrity := none
           advice := none, error_message := some "Nonce mismatch" }, cache1)
      else
        let status : AttStatus :=
          if payload.ctsProfileMatch && payload.basicIntegrity then .valid
          else .invalid
        let advice := if status = .invalid then payload.advice else none
        let cache2 :=
          cache_attestation cache1 now ttl req.device_id "android" status
            (.safetynet payload.ctsProfileMatch payload.basicIntegrity advice)
        ({ status := status, device_id := req.device_id, timestamp := now
           cts_profile_match := some payload.ctsProfileMatch
           basic_integrity := some payload.basicIntegrity
           advice := advice, error_message := none }, cache2)

/-! Shared concrete instantiations of the abstract cryptographic
parameters, used by the concrete evaluations below. -/

/-- A parser that accepts every CSR PEM with a valid self-signature. -/
def parseOk : String → Option CSR := fun _ => some ⟨true, "PUBKEY"⟩

/-- A parser that rejects every CSR PEM. -/
def parseFail : String → Option CSR := fun _ => none

/-- A concrete stand-in for the x509 build-and-sign pipeline. -/
def pemOf : PemBuilder := fun device serial _ _ _ => device ++ "/" ++ serial

/-! Helper lemmas for the base64url development. -/

theorem b64UrlChar_ne_pad (n : Nat) : b64UrlChar n ≠ '=' := by
  unfold b64UrlChar
  rcases Nat.lt_or_ge n b64UrlChars.length with h | h
  · rw [List.getD_eq_getElem _ _ h]
    have hmem : b64UrlChars[n] ∈ b64UrlChars := List.getElem_mem h
    have hall : ∀ c ∈ b64UrlChars, c ≠ '=' := by decide
    exact hall _ hmem
  · rw [List.getD_eq_default _ _ h]
    decide

theorem dropWhile_append_singleton (p : Char → Bool) (x : Char)
    (hx : p x = false) (ys : List Char) :
    (ys ++ [x]).dropWhile p = ys.dropWhile p ++ [x] := by
  induction ys with
  | nil => simp [List.dropWhile, hx]
  | cons y ys ih =>
    by_cases hy : p y <;> simp [List.dropWhile, hy, ih]

theorem rstripEq_cons (x : Char) (t : List Char) (hx : x ≠ '=') :
    rstripEq (x :: t) = x :: rstripEq t := by
  have hx' : (fun c => decide (c = '=')) x = false := by
    simp [hx]
  simp only [rstripEq, List.reverse_cons]
  rw [dropWhile_append_singleton _ _ hx']
  simp

/-- Stripping the `=` padding from the padded base64url encoding yields
exactly the unpadded base64url encoding. -/
theorem rstrip_base64 (bs : List Nat) :
    rstripEq (base64UrlEncode bs) = base64UrlNoPad bs := by
  induction bs using base64UrlEncode.induct with
  | case1 =>
    simp [base64UrlEncode, base64UrlNoPad, rstripEq]
  | case2 a =>
    rw [base64UrlEncode, base64UrlNoPad,
      rstripEq_cons _ _ (b64UrlChar_ne_pad _),
      rstripEq_cons _ _ (b64UrlChar_ne_pad _)]
    have : rstripEq ['=', '='] = [] := by decide
    rw [this]
  | case3 a b =>
    rw [base64UrlEncode, base64UrlNoPad,
      rstripEq_cons _ _ (b64UrlChar_ne_pad _),
      rstripEq_cons _ _ (b64UrlChar_ne_pad _),
      rstripEq_cons _ _ (b64UrlChar_ne_pad _)]
    have : rstripEq ['='] = [] := by decide
    rw [this]
  | case4 a b c rest ih =>
    rw [base64UrlEncode, base64UrlNoPad,
      rstripEq_cons _ _ (b64UrlChar_ne_pad _),
      rstripEq_cons _ _ (b64UrlChar_ne_pad _),
      rstripEq_cons _ _ (b64UrlChar_ne_pad _),
      rstripEq_cons _ _ (b64UrlChar_ne_pad _), ih]

/-- Claim C8: for every code verifier, the `code_challenge` query parameter
carried in the authorization URL built by `create_authorization` equals the
unpadded base64url encoding of the verifier's SHA-256 digest, and the URL
carries `code_challenge_method=S256`.  (`urlencode` transports both values
verbatim: the base64url alphabet contains no reserved characters.) -/
theorem c8_pkce_binding (sha256 : String → List Nat)
    (signState : StatePayload → String) (genState : String)
    (client_id code_verifier redirect_uri : String)
    (client_state : Option String) :
    lookupA "code_challenge"
        (create_authorization sha256 signState genState client_id
          code_verifier redirect_uri client_state).2
      = some (base64UrlNoPadStr (sha256 code_verifier)) ∧
    lookupA "code_challenge_method"
        (create_authorization sha256 signState genState client_id
          code_verifier redirect_uri client_state).2
      = some "S256" := by
  constructor
  · simp [create_authorization, get_authorization_url_params, lookupA,
      generate_code_challenge, base64UrlNoPadStr, rstrip_base64]
  · simp [create_authorization, get_authorization_url_params, lookupA]

/-- Claim C7: round trip of the signed-state codec — verifying a freshly
signed token within a positive `max_age` returns the payload; a token whose
MAC does not match its payload and timestamp (any tampering) verifies to
`none`; a token whose age exceeds `max_age` verifies to `none`. -/
theorem c7_signed_state_codec {α β : Type} [DecidableEq β] (mac : α → Nat → β)
    (payload : α) (t maxAge now : Nat) (token : SignedToken α β) :
    (0 < maxAge →
      verify_signed_data mac (sign_data mac payload t) maxAge t = some payload) ∧
    (token.sig ≠ mac token.payload token.ts →
      verify_signed_data mac token maxAge now = none) ∧
    (maxAge < now - token.ts →
      verify_signed_data mac token maxAge now = none) := by
  refine ⟨fun _ => ?_, fun hbad => ?_, fun hold => ?_⟩
  · simp [sign_data, verify_signed_data]
  · simp [verify_signed_data, hbad]
  · simp only [verify_signed_data]
    split
    · rw [if_neg (by omega)]
    · rfl

/-- Witness for C7 at a concrete MAC, payload and clock. -/
theorem c7_signed_state_codec_witness :
    verify_signed_data (fun (p t : Nat) => p * 1000 + t)
        (sign_data (fun (p t : Nat) => p * 1000 + t) 42 5) 600 5 = some 42 ∧
    verify_signed_data (fun (p t : Nat) => p * 1000 + t)
        ⟨7, 0, 1⟩ 600 10 = none ∧
    verify_signed_data (fun (p t : Nat) => p * 1000 + t)
        (sign_data (fun (p t : Nat) => p * 1000 + t) 7 0) 600 700 = none :=
  ⟨(c7_signed_state_codec (fun p t => p * 1000 + t) 42 5 600 5 ⟨7, 0, 1⟩).1
      (by decide),
   (c7_signed_state_codec (fun p t => p * 1000 + t) 42 5 600 10 ⟨7, 0, 1⟩).2.1
      (by decide),
   (c7_signed_state_codec (fun p t => p * 1000 + t) 42 5 600 700
      (sign_data (fun p t => p * 1000 + t) 7 0)).2.2 (by decide)⟩

/-- Claim C10: `sign_csr` is atomic on rejection — when the CSR PEM fails
to parse, or parses but carries an invalid self-signature, the call returns
an error and the certificate store is exactly as it was before the call (no
record and no serial-index entry is written). -/
theorem c10_sign_csr_rejection_atomic (parse : String → Option CSR)
    (mkPem : PemBuilder) (st : LocalCertStore)
    (csr_pem device_id platform : String) (vdays : Option Nat)
    (serial_hex : String) (t : Nat)
    (h : parse csr_pem = none ∨
      ∃ c, parse csr_pem = some c ∧ c.is_signature_valid = false) :
    (sign_csr parse mkPem st csr_pem device_id platform vdays serial_hex t).2 = st ∧
    ∃ e, (sign_csr parse mkPem st csr_pem device_id platform vdays serial_hex t).1
      = .error e := by
  rcases h with h | ⟨c, hp, hv⟩
  · exact ⟨by simp [sign_csr, h], ⟨.invalidCsrFormat, by simp [sign_csr, h]⟩⟩
  · exact ⟨by simp [sign_csr, hp, hv], ⟨.invalidCsrSignature, by simp [sign_csr, hp, hv]⟩⟩

/-- Witness for C10: an unparsable CSR leaves the empty store untouched. -/
theorem c10_sign_csr_rejection_atomic_witness :
    (sign_csr parseFail pemOf emptyStore "NOT-A-CSR" "device-0001" "android"
      none "0123456789ABCDEF0123456789ABCDEF" 50).2 = emptyStore ∧
    ∃ e, (sign_csr parseFail pemOf emptyStore "NOT-A-CSR" "device-0001" "android"
      none "0123456789ABCDEF0123456789ABCDEF" 50).1 = .error e :=
  c10_sign_csr_rejection_atomic parseFail pemOf emptyStore "NOT-A-CSR"
    "device-0001" "android" none "0123456789ABCDEF0123456789ABCDEF" 50
    (Or.inl rfl)

/-- Modelled from the claim's words for C2: a record for the serial exists,
is not revoked, and the current time lies in `[issued_at, expires_at]`. -/
def whitelisted_per_claim (st : LocalCertStore) (now : Nat) (serial : String) : Bool :=
  (list_all_certificates st).any
    (fun c => c.serial = serial && !c.revoked && c.issued_at ≤ now && now ≤ c.expires_at)

/-- Counterexample to C2 as stated: a certificate whose `issued_at` lies in
the future (saved at time 100, queried at time 50) is reported whitelisted
by the code, because `is_serial_whitelisted` never consults `issued_at`. -/
theorem c2_counterexample :
    is_serial_whitelisted
        (save_certificate emptyStore
          ⟨"device-0001", "0123456789ABCDEF0123456789ABCDEF", "android",
            100, 2592100, "PEMDATA", false⟩)
        50 "0123456789ABCDEF0123456789ABCDEF" = true ∧
    whitelisted_per_claim
        (save_certificate emptyStore
          ⟨"device-0001", "0123456789ABCDEF0123456789ABCDEF", "android",
            100, 2592100, "PEMDATA", false⟩)
        50 "0123456789ABCDEF0123456789ABCDEF" = false := by
  decide

/-- Amended C2: `is_serial_whitelisted(serial)` is true iff the serial-index
entry exists and points at a device whose current record exists, is not
revoked, and has `expires_at ≥ now`; the record's `issued_at` is never
consulted, so a certificate dated in the future is whitelisted. -/
theorem c2_whitelist_characterization (st : LocalCertStore) (now : Nat)
    (serial : String) :
    is_serial_whitelisted st now serial = true ↔
      ∃ d c, lookupA serial st.serials = some d ∧
        lookupA d st.certs = some c ∧
        c.revoked = false ∧ now ≤ c.expires_at := by
  cases hs : lookupA serial st.serials with
  | none => simp [is_serial_whitelisted, hs]
  | some d =>
    cases hc : lookupA d st.certs with
    | none => simp [is_serial_whitelisted, get_certificate, hs, hc]
    | some c =>
      by_cases hr : c.revoked <;> by_cases he : c.expires_at < now <;>
        simp [is_serial_whitelisted, get_certificate, hs, hc, hr, he] <;>
        omega

/-- Claim C6: a certificate issued by `sign_csr` with no explicit
`validity_days` override has `not_before = now` and a validity span equal
to the per-platform default — 30 days for android and ios, 7 for desktop,
1 for web, and 7 for any other platform value (matching performed on the
lowercased platform, as in the source) — hence the span always lies in
`{1, 7, 30}` days. -/
theorem c6_platform_validity (parse : String → Option CSR) (mkPem : PemBuilder)
    (st : LocalCertStore) (csr_pem device_id platform serial_hex : String)
    (now : Nat) (cert : Certificate) (st' : LocalCertStore)
    (h : sign_csr parse mkPem st csr_pem device_id platform none serial_hex now
      = (.ok cert, st')) :
    cert.issued_at = now ∧
    cert.expires_at - cert.issued_at = oneDay * get_validity_days platform ∧
    (strToLower platform = "android" → get_validity_days platform = 30) ∧
    (strToLower platform = "ios" → get_validity_days platform = 30) ∧
    (strToLower platform = "desktop" → get_validity_days platform = 7) ∧
    (strToLower platform = "web" → get_validity_days platform = 1) ∧
    (strToLower platform ≠ "android" → strToLower platform ≠ "ios" →
      strToLower platform ≠ "desktop" → strToLower platform ≠ "web" →
      get_validity_days platform = 7) ∧
    (get_validity_days platform = 1 ∨ get_validity_days platform = 7 ∨
      get_validity_days platform = 30) := by
  have hfields : cert.issued_at = now ∧
      cert.expires_at = now + oneDay * get_validity_days platform := by
    cases hp : parse csr_pem with
    | none => simp [sign_csr, hp] at h
    | some csr =>
      by_cases hv : csr.is_signature_valid
      · simp only [sign_csr, hp, hv, Bool.not_true, if_false, Option.getD_none,
          Bool.false_eq_true, Prod.mk.injEq, Except.ok.injEq] at h
        rw [← h.1]
        exact ⟨rfl, rfl⟩
      · simp [sign_csr, hp, hv] at h
  refine ⟨hfields.1, ?_, ?_, ?_, ?_, ?_, ?_, ?_⟩
  · rw [hfields.1, hfields.2]; omega
  · intro hplat; simp [get_validity_days, hplat]
  · intro hplat; simp [get_validity_days, hplat]
  · intro hplat; simp [get_validity_days, hplat]
  · intro hplat; simp [get_validity_days, hplat]
  · intro h1 h2 h3 h4; simp [get_validity_days, h1, h2, h3, h4]
  · simp only [get_validity_days]
    split_ifs <;> simp

/-- The certificate produced by the concrete C6 witness run. -/
def c6Cert : Certificate :=
  ⟨"device-0001", "ABCDEF0123456789ABCDEF0123456789", "android", 0, 2592000,
    "device-0001/ABCDEF0123456789ABCDEF0123456789", false⟩

/-- Witness for C6: a concrete android issuance has a 30-day span. -/
theorem c6_platform_validity_witness :
    c6Cert.issued_at = 0 ∧
    c6Cert.expires_at - c6Cert.issued_at = oneDay * get_validity_days "android" := by
  have h := c6_platform_validity parseOk pemOf emptyStore "CSRPEM" "device-0001"
    "android" "ABCDEF0123456789ABCDEF0123456789" 0 c6Cert
    (save_certificate emptyStore c6Cert) (by decide)
  exact ⟨h.1, h.2.1⟩

/-- Modelled from the spec for C5: equality of serials up to letter case. -/
def serial_eq_case_insensitive (s t : String) : Bool := strToLower s = strToLower t

/-- The certificate on record in the C5 scenario. -/
def c5Cert : Certificate :=
  ⟨"device-0001", "AB12CD34AB12CD34AB12CD34AB12CD34", "android", 0, 2592000,
    "PEMDATA", false⟩

def c5Store : LocalCertStore := save_certificate emptyStore c5Cert

/-- Counterexample to C5 as stated: a supplied serial equal to the stored
one up to letter case does not make renewal proceed — the service's `!=`
comparison reports a serial mismatch. -/
theorem c5_counterexample :
    serial_eq_case_insensitive "AB12CD34AB12CD34AB12CD34AB12CD34"
      "ab12cd34ab12cd34ab12cd34ab12cd34" = true ∧
    (renew_certificate parseOk pemOf c5Store "device-0001"
        "ab12cd34ab12cd34ab12cd34ab12cd34" "CSRPEM"
        "FFFF0000FFFF0000FFFF0000FFFF0000" 10).1 = .error .serialMismatch := by
  decide

/-- Amended C5: renew compares the stored serial with the supplied
`old_serial` by exact, case-sensitive string equality; the call fails with
`SERIAL_MISMATCH` exactly when the two strings differ, so a serial equal
only up to case is rejected.  (The request model additionally restricts
supplied serials to uppercase hex via the pattern `^[A-F0-9]+$`.) -/
theorem c5_serial_comparison_exact (parse : String → Option CSR)
    (mkPem : PemBuilder) (st : LocalCertStore)
    (device_id old_serial csr_pem new_serial : String) (now : Nat)
    (c : Certificate) (h : get_certificate st device_id = some c) :
    ((renew_certificate parse mkPem st device_id old_serial csr_pem new_serial
        now).1 = .error .serialMismatch ↔ c.serial ≠ old_serial) := by
  by_cases hs : c.serial = old_serial
  · simp only [renew_certificate, h, hs, ne_eq, not_true_eq_false, if_false]
    rcases hsig : sign_csr parse mkPem st csr_pem device_id c.platform none
        new_serial now with ⟨res, st1⟩
    cases res <;> simp [hs]
  · simp [renew_certificate, h, hs]

/-- Witness for C5's amended statement at the concrete store. -/
theorem c5_serial_comparison_exact_witness :
    ((renew_certificate parseOk pemOf c5Store "device-0001"
        "ab12cd34ab12cd34ab12cd34ab12cd34" "CSRPEM"
        "FFFF0000FFFF0000FFFF0000FFFF0000" 10).1 = .error .serialMismatch
      ↔ c5Cert.serial ≠ "ab12cd34ab12cd34ab12cd34ab12cd34") :=
  c5_serial_comparison_exact parseOk pemOf c5Store "device-0001"
    "ab12cd34ab12cd34ab12cd34ab12cd34" "CSRPEM"
    "FFFF0000FFFF0000FFFF0000FFFF0000" 10 c5Cert (by decide)

/-- First certificate saved in the C3 scenario. -/
def c3CertA : Certificate :=
  ⟨"device-0001", "AAAA1111AAAA1111AAAA1111AAAA1111", "android", 0, 2592000,
    "PEM-A", false⟩

/-- Second certificate for the same device with a distinct serial. -/
def c3CertB : Certificate :=
  ⟨"device-0001", "BBBB2222BBBB2222BBBB2222BBBB2222", "android", 5, 2592005,
    "PEM-B", false⟩

/-- Counterexample to C3 as stated: after saving two certificates that
share a `device_id` but have distinct serials, the first record is no
longer retrievable — the device lookup returns only the second, and the
first record is gone from the store's enumeration. -/
theorem c3_counterexample :
    get_certificate (save_certificate (save_certificate emptyStore c3CertA)
        c3CertB) "device-0001" = some c3CertB ∧
    c3CertB ≠ c3CertA ∧
    c3CertA ∉ list_all_certificates
      (save_certificate (save_certificate emptyStore c3CertA) c3CertB) := by
  decide

/-- Amended C3: `save_certificate` is an upsert keyed by `device_id` alone
for the record file, plus a serial-index entry keyed by `serial`.
Re-saving the same certificate is idempotent; saving a second certificate
for the same device with a distinct serial overwrites the record (only the
latest is retrievable) while both serial-index entries remain, each
pointing at the device. -/
theorem c3_save_upsert_by_device (st : LocalCertStore) (c c1 c2 : Certificate)
    (hdev : c1.device_id = c2.device_id) (hser : c1.serial ≠ c2.serial) :
    save_certificate (save_certificate st c) c = save_certificate st c ∧
    get_certificate (save_certificate (save_certificate st c1) c2)
      c1.device_id = some c2 ∧
    lookupA c1.serial
      (save_certificate (save_certificate st c1) c2).serials = some c1.device_id ∧
    lookupA c2.serial
      (save_certificate (save_certificate st c1) c2).serials = some c2.device_id := by
  refine ⟨?_, ?_, ?_, ?_⟩
  · simp [save_certificate, alistPut_idem]
  · simp [get_certificate, save_certificate, hdev, lookupA_put_self]
  · simp only [save_certificate]
    rw [lookupA_put_ne _ _ _ _ hser, lookupA_put_self]
  · simp [save_certificate, lookupA_put_self]

/-- Witness for C3's amended statement at the concrete certificates. -/
theorem c3_save_upsert_by_device_witness :
    save_certificate (save_certificate emptyStore c3CertA) c3CertA
      = save_certificate emptyStore c3CertA ∧
    get_certificate (save_certificate (save_certificate emptyStore c3CertA)
      c3CertB) c3CertA.device_id = some c3CertB ∧
    lookupA c3CertA.serial
      (save_certificate (save_certificate emptyStore c3CertA) c3CertB).serials
      = some c3CertA.device_id ∧
    lookupA c3CertB.serial
      (save_certificate (save_certificate emptyStore c3CertA) c3CertB).serials
      = some c3CertB.device_id :=
  c3_save_upsert_by_device emptyStore c3CertA c3CertA c3CertB (by decide)
    (by decide)

/-- The exempt set exactly as the claim states it (including the pin
path). -/
def claimedExemptPaths : List String :=
  ["/", "/health", "/health/public", "/docs", "/redoc", "/openapi.json",
   "/device/enroll", "/device/ca-certificate", "/device/ca-certificate-pin"]

/-- A validator that accepts every certificate (the claim's gate behaviour
must hold for any validator). -/
def validateOk : String → Except String (String × String) :=
  fun _ => .ok ("device-0001", "SERIAL")

def envoyNone : String → Option String := fun _ => none

/-- Counterexample to C4 as stated: `/device/ca-certificate-pin` is in the
claim's exempt list, but the middleware does not exempt it — a request
there with no certificate header is answered with the 401 `CERT_MISSING`
response instead of being passed through. -/
theorem c4_counterexample :
    claimedExemptPaths.contains "/device/ca-certificate-pin" = true ∧
    dispatch validateOk envoyNone "/device/ca-certificate-pin" none none none
      = .certMissing := by
  decide

/-- Amended C4: the middleware passes a request through with no certificate
requirement exactly on the code's exempt set — the exact paths of
`exemptPaths` and `exemptExact` (which omit `/device/ca-certificate-pin`)
and the prefixes `/oauth/`, `/config/`; on every other path, a request
carrying none of the three certificate headers is answered with the 401
`CERT_MISSING` response. -/
theorem c4_exempt_gate (path : String)
    (validate : String → Except String (String × String))
    (decodeEnvoy : String → Option String) (xcc xssl xfcc : Option String) :
    ((exemptPaths.contains path || exemptExact.contains path
        || (strStartsWith path "/oauth/" || strStartsWith path "/config/")) = true →
      dispatch validate decodeEnvoy path xcc xssl xfcc = .forwarded) ∧
    ((exemptPaths.contains path || exemptExact.contains path
        || (strStartsWith path "/oauth/" || strStartsWith path "/config/")) = false →
      dispatch validate decodeEnvoy path none none none = .certMissing) := by
  have he : is_exempt_path path =
      (exemptPaths.contains path || exemptExact.contains path
        || (strStartsWith path "/oauth/" || strStartsWith path "/config/")) := by
    simp [is_exempt_path, exemptPrefixes]
  constructor
  · intro h
    have ht : is_exempt_path path = true := he.trans h
    simp [dispatch, ht]
  · intro h
    have ht : is_exempt_path path = false := he.trans h
    simp [dispatch, ht, extract_certificate]

/-- Witness for C4's amended statement: `/health` is forwarded with no
certificate, `/device/renew` is answered `CERT_MISSING`. -/
theorem c4_exempt_gate_witness :
    dispatch validateOk envoyNone "/health" none none none
      = MtlsOutcome.forwarded ∧
    dispatch validateOk envoyNone "/device/renew" none none none
      = MtlsOutcome.certMissing :=
  ⟨(c4_exempt_gate "/health" validateOk envoyNone none none none).1 (by decide),
   (c4_exempt_gate "/device/renew" validateOk envoyNone none none none).2
     (by decide)⟩

/-- A JWS decoder for the C9 counterexample: the token decodes to a payload
whose nonce differs from the request's. -/
def c9DecodeMismatch : String → Option JwsPayload :=
  fun t => if t = "JWSTOKEN" then some ⟨some "other-nonce", true, true, none⟩
    else none

/-- Counterexample to C9 as stated: a SafetyNet verification whose payload
nonce differs from the request nonce returns status INVALID — not FAILED —
yet inserts no cache entry: the cache stays empty, so the claimed
"cache entry inserted on every non-FAILED result" fails. -/
theorem c9_counterexample :
    (verify_safetynet c9DecodeMismatch [] 0 3600
        ⟨"device-0001", "JWSTOKEN", "expected-nonce"⟩).1.status
      = AttStatus.invalid ∧
    (verify_safetynet c9DecodeMismatch [] 0 3600
        ⟨"device-0001", "JWSTOKEN", "expected-nonce"⟩).2 = [] := by
  decide

/-- Amended C9: a cache entry keyed `(device_id, platform)` with expiry
`now + TTL` is inserted only on results that pass decoding and nonce
validation (VALID, or INVALID from the integrity bits) — nonce-mismatch
INVALID results, FAILED results, and DeviceCheck's UNSUPPORTED results are
not cached.  When an entry is inserted, any call for the same
`(device_id, platform)` at a time within the TTL short-circuits to the
cached result and leaves the cache unchanged. -/
theorem c9_attestation_cache (decodeJws : String → Option JwsPayload)
    (cache : AttCache) (now ttl : Nat) (req : SafetyNetRequest)
    (payload : JwsPayload) (resp : SafetyNetResponse) (cache' : AttCache)
    (hmiss : lookupA (req.device_id ++ ":" ++ "android") cache = none)
    (hdec : decodeJws req.jws_token = some payload)
    (hnonce : payload.nonce = some req.nonce)
    (hrun : verify_safetynet decodeJws cache now ttl req = (resp, cache')) :
    resp.status ≠ AttStatus.failed ∧
    lookupA (req.device_id ++ ":" ++ "android") cache' =
      some ⟨req.device_id, "android", resp.status, now, now + ttl,
        .safetynet payload.ctsProfileMatch payload.basicIntegrity resp.advice⟩ ∧
    ∀ req2 now2, req2.device_id = req.device_id → now2 ≤ now + ttl →
      verify_safetynet decodeJws cache' now2 ttl req2 =
        ({ status := resp.status, device_id := req.device_id, timestamp := now,
           cts_profile_match := some payload.ctsProfileMatch,
           basic_integrity := some payload.basicIntegrity,
           advice := none, error_message := none }, cache') := by
  simp only [verify_safetynet, get_cached_attestation, hmiss, hdec] at hrun
  rw [if_neg (by simp [hnonce])] at hrun
  injection hrun with hresp hcache
  subst hresp
  subst hcache
  refine ⟨?_, ?_, ?_⟩
  · by_cases hcb : payload.ctsProfileMatch && payload.basicIntegrity <;>
      simp [hcb]
  · by_cases hcb : payload.ctsProfileMatch && payload.basicIntegrity <;>
      simp [hcb, cache_attestation, lookupA_put_self]
  · intro req2 now2 hdev hle
    simp only [verify_safetynet, get_cached_attestation, hdev,
      cache_attestation, lookupA_put_self]
    rw [if_neg (by omega)]
    simp [detailsCts, detailsBasic]

/-- A JWS decoder for the C9 witness: the token decodes with full
integrity and a matching nonce. -/
def c9DecodeOk : String → Option JwsPayload :=
  fun t => if t = "JWSTOKEN" then some ⟨some "the-nonce", true, true, none⟩
    else none

/-- The response of the concrete C9 witness run. -/
def c9Resp : SafetyNetResponse :=
  ⟨.valid, "device-0001", 0, some true, some true, none, none⟩

/-- The cache entry inserted by the concrete C9 witness run. -/
def c9Entry : AttCacheEntry :=
  ⟨"device-0001", "android", .valid, 0, 3600, .safetynet true true none⟩

/-- Witness for C9's amended statement at a concrete verification run. -/
theorem c9_attestation_cache_witness :
    c9Resp.status ≠ AttStatus.failed ∧
    lookupA ("device-0001" ++ ":" ++ "android")
        [("device-0001:android", c9Entry)] =
      some ⟨"device-0001", "android", c9Resp.status, 0, 0 + 3600,
        .safetynet true true c9Resp.advice⟩ := by
  have h := c9_attestation_cache c9DecodeOk [] 0 3600
    ⟨"device-0001", "JWSTOKEN", "the-nonce"⟩ ⟨some "the-nonce", true, true, none⟩
    c9Resp [("device-0001:android", c9Entry)] (by decide) (by decide) (by decide)
    (by decide)
  exact ⟨h.1, h.2.1⟩

/-- The certificate on record before the C1 renewal. -/
def c1OldCert : Certificate :=
  ⟨"device-0001", "AAAA1111AAAA1111AAAA1111AAAA1111", "android", 0, 2592000,
    "OLD-PEM", false⟩

def c1Store : LocalCertStore := save_certificate emptyStore c1OldCert

/-- The certificate issued by the C1 renewal (30-day android validity from
time 1000). -/
def c1NewCert : Certificate :=
  ⟨"device-0001", "BBBB2222BBBB2222BBBB2222BBBB2222", "android", 1000, 2593000,
    "device-0001/BBBB2222BBBB2222BBBB2222BBBB2222", false⟩

/-- Claim C1, evaluated on the code: renewing the only certificate of
`device-0001` succeeds and returns the new certificate, but the revocation
step — which runs after the new record has overwritten the device's single
record file — marks the NEW certificate revoked.  Afterwards
`is_whitelisted(S_new)` is `false` (the claim requires `true`), and
`is_whitelisted(S_old)` is `false` only because both serial-index entries
now point at the revoked new record. -/
theorem c1_renew_revokes_new_certificate :
    (renew_certificate parseOk pemOf c1Store "device-0001"
        "AAAA1111AAAA1111AAAA1111AAAA1111" "CSRPEM"
        "BBBB2222BBBB2222BBBB2222BBBB2222" 1000).1 = .ok c1NewCert ∧
    get_certificate
        (renew_certificate parseOk pemOf c1Store "device-0001"
          "AAAA1111AAAA1111AAAA1111AAAA1111" "CSRPEM"
          "BBBB2222BBBB2222BBBB2222BBBB2222" 1000).2 "device-0001"
      = some { c1NewCert with revoked := true } ∧
    is_serial_whitelisted
        (renew_certificate parseOk pemOf c1Store "device-0001"
          "AAAA1111AAAA1111AAAA1111AAAA1111" "CSRPEM"
          "BBBB2222BBBB2222BBBB2222BBBB2222" 1000).2
        1000 "BBBB2222BBBB2222BBBB2222BBBB2222" = false ∧
    is_serial_whitelisted
        (renew_certificate parseOk pemOf c1Store "device-0001"
          "AAAA1111AAAA1111AAAA1111AAAA1111" "CSRPEM"
          "BBBB2222BBBB2222BBBB2222BBBB2222" 1000).2
        1000 "AAAA1111AAAA1111AAAA1111AAAA1111" = false := by
  decide

end Apuntador
